import Mathlib

/-!
Shallow embedding of the SphereOLED sample application (main.c).

The program is a single-threaded epoll dispatch loop over two timer event
sources: a button poll timer whose handler reads a GPIO input line and, on a
High-to-Low transition, advances a cyclic blink-interval index and rearms the
blink timer; and a blink timer whose handler toggles a GPIO output line.
Hardware and OS calls (ConsumeTimerFdEvent, GPIO_GetValue, GPIO_SetValue,
SetTimerFdToPeriod, the fd-returning creation calls) are modelled by explicit
outcome parameters: a Bool for success of a call whose result is only compared
with 0, an Option for a read that also produces a value, and an Int for a call
returning a file descriptor.
-/

/-- GPIO line levels, as in applibs gpio.h. -/
inductive GPIO_Value_Type
  | Low
  | High
deriving DecidableEq, Repr

/-- The struct timespec values used for timer periods. -/
structure Timespec where
  tv_sec : Int
  tv_nsec : Int
deriving DecidableEq, Repr, Inhabited

/-- The mutable globals of main.c, plus the physical level of the blinking
LED output line (updated whenever a GPIO_SetValue call on it succeeds). -/
structure AppState where
  ledBlinkRateButtonGpioFd : Int
  buttonPollTimerFd : Int
  blinkingLedGpioFd : Int
  blinkingLedTimerFd : Int
  i2cFd : Int
  epollFd : Int
  buttonState : GPIO_Value_Type
  ledState : GPIO_Value_Type
  blinkIntervalIndex : Nat
  blinkTimerPeriod : Timespec
  terminationRequired : Bool
  physicalLed : GPIO_Value_Type
deriving DecidableEq, Repr

/-- static const int numBlinkIntervals = 3. -/
def numBlinkIntervals : Nat := 3

/-- static const struct timespec blinkIntervals[] =
    \x7b\x7b0, 125000000\x7d, \x7b0, 250000000\x7d, \x7b0, 500000000\x7d\x7d. -/
def blinkIntervals : List Timespec :=
  [{ tv_sec := 0, tv_nsec := 125000000 },
   { tv_sec := 0, tv_nsec := 250000000 },
   { tv_sec := 0, tv_nsec := 500000000 }]

/-- The globals before main runs: all file descriptors initialized to the
invalid value -1, buttonState and ledState GPIO_Value_High,
blinkIntervalIndex 0, terminationRequired false. -/
def initialState : AppState :=
  { ledBlinkRateButtonGpioFd := -1
    buttonPollTimerFd := -1
    blinkingLedGpioFd := -1
    blinkingLedTimerFd := -1
    i2cFd := -1
    epollFd := -1
    buttonState := GPIO_Value_Type.High
    ledState := GPIO_Value_Type.High
    blinkIntervalIndex := 0
    blinkTimerPeriod := { tv_sec := 0, tv_nsec := 0 }
    terminationRequired := false
    physicalLed := GPIO_Value_Type.High }

/-- ledState == GPIO_Value_Low ? GPIO_Value_High : GPIO_Value_Low (line 69). -/
def toggleLedValue (v : GPIO_Value_Type) : GPIO_Value_Type :=
  if v = GPIO_Value_Type.Low then GPIO_Value_Type.High else GPIO_Value_Type.Low

/-- BlinkingLedTimerEventHandler (lines 60-75). consumeOk is the success of
ConsumeTimerFdEvent, setOk the success of GPIO_SetValue. Returns the updated
state together with the list of write attempts made on the output line during
this call. -/
def BlinkingLedTimerEventHandler (consumeOk setOk : Bool)
    (s : AppState) : AppState × List GPIO_Value_Type :=
  if consumeOk = false then
    ({ s with terminationRequired := true }, [])
  else
    let newLed := toggleLedValue s.ledState
    let s1 := { s with ledState := newLed }
    if setOk then
      ({ s1 with physicalLed := newLed }, [newLed])
    else
      ({ s1 with terminationRequired := true }, [newLed])

/-- ButtonTimerEventHandler (lines 80-122). consumeOk is the success of
ConsumeTimerFdEvent, readResult the result of GPIO_GetValue (none on failure),
rearmOk the success of SetTimerFdToPeriod. Returns the updated state together
with a flag reporting whether a press event was emitted (the branch performing
the OLED output and advancing the blink interval, lines 99-118). -/
def ButtonTimerEventHandler (consumeOk : Bool)
    (readResult : Option GPIO_Value_Type) (rearmOk : Bool)
    (s : AppState) : AppState × Bool :=
  if consumeOk = false then
    ({ s with terminationRequired := true }, false)
  else
    match readResult with
    | none => ({ s with terminationRequired := true }, false)
    | some newButtonState =>
      if newButtonState ≠ s.buttonState then
        if newButtonState = GPIO_Value_Type.Low then
          let idx := (s.blinkIntervalIndex + 1) % numBlinkIntervals
          let s1 := { s with blinkIntervalIndex := idx }
          let s2 :=
            if rearmOk then
              { s1 with blinkTimerPeriod :=
                  blinkIntervals.getD idx { tv_sec := 0, tv_nsec := 0 } }
            else
              { s1 with terminationRequired := true }
          ({ s2 with buttonState := newButtonState }, true)
        else
          ({ s with buttonState := newButtonState }, false)
      else
        (s, false)

/-- The file-descriptor results of the fallible creation calls made by
InitPeripheralsAndHandlers, in program order: CreateEpollFd,
GPIO_OpenAsInput(MT3620_RDB_BUTTON_A), CreateTimerFdAndAddToEpoll for the
button poll timer, GPIO_OpenAsOutput(MT3620_GPIO0),
CreateTimerFdAndAddToEpoll for the blink timer, I2CMaster_Open. -/
structure InitEnv where
  epollResult : Int
  buttonGpioResult : Int
  buttonTimerResult : Int
  ledGpioResult : Int
  ledTimerResult : Int
  i2cResult : Int
deriving DecidableEq, Repr

/-- InitPeripheralsAndHandlers (lines 132-188). Each creation call stores its
result in the corresponding global and, if it is negative, returns -1 at once.
On success GPIO_OpenAsOutput drives the line to GPIO_Value_High, and the blink
timer is armed at blinkIntervals[blinkIntervalIndex]. The trailing OLED and
display setup has no checked results. Returns (state, return value). -/
def InitPeripheralsAndHandlers (env : InitEnv) (s : AppState) : AppState × Int :=
  let s1 := { s with epollFd := env.epollResult }
  if env.epollResult < 0 then (s1, -1) else
  let s2 := { s1 with ledBlinkRateButtonGpioFd := env.buttonGpioResult }
  if env.buttonGpioResult < 0 then (s2, -1) else
  let s3 := { s2 with buttonPollTimerFd := env.buttonTimerResult }
  if env.buttonTimerResult < 0 then (s3, -1) else
  let s4 := { s3 with blinkingLedGpioFd := env.ledGpioResult }
  if env.ledGpioResult < 0 then (s4, -1) else
  let s5 := { s4 with physicalLed := GPIO_Value_Type.High }
  let s6 := { s5 with blinkingLedTimerFd := env.ledTimerResult }
  if env.ledTimerResult < 0 then (s6, -1) else
  let s7 := { s6 with blinkTimerPeriod :=
      blinkIntervals.getD s6.blinkIntervalIndex { tv_sec := 0, tv_nsec := 0 } }
  let s8 := { s7 with i2cFd := env.i2cResult }
  if env.i2cResult < 0 then (s8, -1) else
  (s8, 0)

/-- Observable actions performed by teardown, in order: a write of a level to
the blinking LED output line, or a close of a file descriptor. -/
inductive TeardownAction
  | setLed (v : GPIO_Value_Type)
  | closeFd (fd : Int)
deriving DecidableEq, Repr

/-- Modelled from the spec: CloseFdAndPrintError (epoll_timerfd_utilities, not
under src/) closes a descriptor only when it is valid (non-negative), and
tolerates - logs but does not propagate - an individual close failure, so
teardown always completes. Returns the close actions performed. -/
def CloseFdAndPrintError (fd : Int) : List TeardownAction :=
  if 0 ≤ fd then [TeardownAction.closeFd fd] else []

/-- ClosePeripheralsAndHandlers (lines 193-206): if the blinking LED line is
open, leave the LED off by writing GPIO_Value_High (result unchecked); then
close blinkingLedTimerFd, blinkingLedGpioFd, buttonPollTimerFd,
ledBlinkRateButtonGpioFd and epollFd, in that order. Returns the updated
state together with the list of actions performed in order. -/
def ClosePeripheralsAndHandlers (s : AppState) : AppState × List TeardownAction :=
  let pre :=
    if 0 ≤ s.blinkingLedGpioFd then
      ({ s with physicalLed := GPIO_Value_Type.High },
        [TeardownAction.setLed GPIO_Value_Type.High])
    else (s, [])
  (pre.1,
    pre.2 ++ CloseFdAndPrintError s.blinkingLedTimerFd
      ++ CloseFdAndPrintError s.blinkingLedGpioFd
      ++ CloseFdAndPrintError s.buttonPollTimerFd
      ++ CloseFdAndPrintError s.ledBlinkRateButtonGpioFd
      ++ CloseFdAndPrintError s.epollFd)

/-- One wakeup of the dispatch loop. Modelled from the spec:
WaitForEventAndCallHandler (epoll_timerfd_utilities, not under src/) blocks,
then invokes the handler bound to one ready source and returns 0, or returns
nonzero when the wait primitive fails (waitFailure). A terminationSignal
wakeup stands for delivery of SIGTERM, whose handler only sets
terminationRequired (lines 51-55). -/
inductive LoopEvent
  | blinkTimerEvent (consumeOk setOk : Bool)
  | buttonTimerEvent (consumeOk : Bool) (readResult : Option GPIO_Value_Type)
      (rearmOk : Bool)
  | terminationSignal
  | waitFailure
deriving DecidableEq, Repr

/-- Effect of one wakeup on the state: dispatch to the bound handler, or set
terminationRequired for a SIGTERM delivery or a failed wait (line 221). -/
def dispatchEvent (e : LoopEvent) (s : AppState) : AppState :=
  match e with
  | LoopEvent.blinkTimerEvent c w => (BlinkingLedTimerEventHandler c w s).1
  | LoopEvent.buttonTimerEvent c r a => (ButtonTimerEventHandler c r a s).1
  | LoopEvent.terminationSignal => { s with terminationRequired := true }
  | LoopEvent.waitFailure => { s with terminationRequired := true }

/-- The dispatch loop of main (lines 219-223): while terminationRequired is
false, wait and handle one wakeup. The list supplies the pending wakeups. -/
def runLoop : List LoopEvent → AppState → AppState
  | [], s => s
  | e :: rest, s =>
    if s.terminationRequired then s else runLoop rest (dispatchEvent e s)

/-- main (lines 211-228): run initialization, set terminationRequired when it
fails, run the dispatch loop, run teardown, return 0. Returns the final
state, the teardown actions, and the process exit code. -/
def mainProgram (env : InitEnv) (events : List LoopEvent) :
    AppState × List TeardownAction × Int :=
  let p := InitPeripheralsAndHandlers env initialState
  let s1 := if p.2 ≠ 0 then { p.1 with terminationRequired := true } else p.1
  let s2 := runLoop events s1
  let q := ClosePeripheralsAndHandlers s2
  (q.1, q.2, 0)

/-- The outcomes of the fallible calls made during one button poll firing:
ConsumeTimerFdEvent, GPIO_GetValue (none on failure), SetTimerFdToPeriod. -/
structure ButtonPollInput where
  consumeOk : Bool
  readResult : Option GPIO_Value_Type
  rearmOk : Bool
deriving DecidableEq, Repr

/-- A sequence of button poll firings dispatched by the loop: each firing runs
ButtonTimerEventHandler unless terminationRequired already holds, in which
case the loop has exited and no further firing is handled. Returns the final
state and the number of press events emitted. -/
def runButtonPolls : List ButtonPollInput → AppState → AppState × Nat
  | [], s => (s, 0)
  | i :: rest, s =>
    if s.terminationRequired then (s, 0)
    else
      let r := ButtonTimerEventHandler i.consumeOk i.readResult i.rearmOk s
      let t := runButtonPolls rest r.1
      (t.1, (if r.2 then 1 else 0) + t.2)

/-- A sequence of n blink timer firings in which ConsumeTimerFdEvent and
GPIO_SetValue both succeed every time. Returns the final state and the
concatenated write attempts on the output line. -/
def runBlinkFirings : Nat → AppState → AppState × List GPIO_Value_Type
  | 0, s => (s, [])
  | Nat.succ n, s =>
    let r := BlinkingLedTimerEventHandler true true s
    let t := runBlinkFirings n r.1
    (t.1, r.2 ++ t.2)

/-- Claim C7: after a poll firing in which ConsumeTimerFdEvent and the GPIO
read succeed and rearming succeeds, the stored button level equals the newly
read level, whether or not it differed from the previous stored level and
whether or not a press was emitted. -/
theorem poll_updates_stored_button_level (s : AppState) (v : GPIO_Value_Type) :
    (ButtonTimerEventHandler true (some v) true s).1.buttonState = v := by
  cases v <;> cases hb : s.buttonState <;>
    simp [ButtonTimerEventHandler, hb]

/-- Claim C8: the process exit code is 0 on every execution path - for every
initialization outcome and every sequence of loop wakeups. -/
theorem exit_code_always_zero (env : InitEnv) (events : List LoopEvent) :
    (mainProgram env events).2.2 = 0 := rfl

/-- Claim C9: on a blink firing where ConsumeTimerFdEvent succeeds but the
output write fails, the stored level has already been toggled, the
termination flag is set, the previous stored level is not restored, and the
stored level disagrees with the physical line afterwards. -/
theorem blink_write_failure_not_atomic (s : AppState)
    (h : s.ledState = s.physicalLed) :
    (BlinkingLedTimerEventHandler true false s).1.terminationRequired = true ∧
    (BlinkingLedTimerEventHandler true false s).1.ledState
      = toggleLedValue s.ledState ∧
    (BlinkingLedTimerEventHandler true false s).1.physicalLed = s.physicalLed ∧
    (BlinkingLedTimerEventHandler true false s).1.ledState
      ≠ (BlinkingLedTimerEventHandler true false s).1.physicalLed := by
  cases hl : s.ledState <;>
    simp [BlinkingLedTimerEventHandler, toggleLedValue, hl, ← h]

theorem blink_write_failure_not_atomic_witness :
    (BlinkingLedTimerEventHandler true false initialState).1.terminationRequired
      = true ∧
    (BlinkingLedTimerEventHandler true false initialState).1.ledState
      = toggleLedValue initialState.ledState ∧
    (BlinkingLedTimerEventHandler true false initialState).1.physicalLed
      = initialState.physicalLed ∧
    (BlinkingLedTimerEventHandler true false initialState).1.ledState
      ≠ (BlinkingLedTimerEventHandler true false initialState).1.physicalLed :=
  blink_write_failure_not_atomic initialState (by decide)

/-- Claim C10: on a press event whose SetTimerFdToPeriod rearm fails, the
termination flag is set, yet the blink interval index has already advanced
modulo the table length and the stored button level is still updated to the
newly read pressed level; neither change is rolled back. -/
theorem press_rearm_failure_state_advances (s : AppState)
    (hb : s.buttonState = GPIO_Value_Type.High) :
    (ButtonTimerEventHandler true (some GPIO_Value_Type.Low) false
        s).1.terminationRequired = true ∧
    (ButtonTimerEventHandler true (some GPIO_Value_Type.Low) false
        s).1.blinkIntervalIndex = (s.blinkIntervalIndex + 1) % numBlinkIntervals ∧
    (ButtonTimerEventHandler true (some GPIO_Value_Type.Low) false
        s).1.buttonState = GPIO_Value_Type.Low ∧
    (ButtonTimerEventHandler true (some GPIO_Value_Type.Low) false s).2
      = true := by
  simp [ButtonTimerEventHandler, hb]

theorem press_rearm_failure_state_advances_witness :
    (ButtonTimerEventHandler true (some GPIO_Value_Type.Low) false
        initialState).1.terminationRequired = true ∧
    (ButtonTimerEventHandler true (some GPIO_Value_Type.Low) false
        initialState).1.blinkIntervalIndex
      = (initialState.blinkIntervalIndex + 1) % numBlinkIntervals ∧
    (ButtonTimerEventHandler true (some GPIO_Value_Type.Low) false
        initialState).1.buttonState = GPIO_Value_Type.Low ∧
    (ButtonTimerEventHandler true (some GPIO_Value_Type.Low) false
        initialState).2 = true :=
  press_rearm_failure_state_advances initialState (by decide)

/-- In a run of poll firings whose reads all succeed with the pressed level,
at most one press is emitted, and none at all when the stored level is
already the pressed level. -/
lemma pressed_run_count (inputs : List ButtonPollInput) (s : AppState)
    (hall : ∀ i ∈ inputs,
      i.consumeOk = true ∧ i.readResult = some GPIO_Value_Type.Low) :
    (runButtonPolls inputs s).2 ≤ 1 ∧
      (s.buttonState = GPIO_Value_Type.Low → (runButtonPolls inputs s).2 = 0) := by
  induction inputs generalizing s with
  | nil => simp [runButtonPolls]
  | cons i rest ih =>
    have hi := hall i (by simp)
    have hall2 : ∀ j ∈ rest,
        j.consumeOk = true ∧ j.readResult = some GPIO_Value_Type.Low :=
      fun j hj => hall j (by simp [hj])
    by_cases ht : s.terminationRequired
    · simp [runButtonPolls, ht]
    · by_cases hb : s.buttonState = GPIO_Value_Type.Low
      · have hstep :
            ButtonTimerEventHandler i.consumeOk i.readResult i.rearmOk s
              = (s, false) := by
          simp [ButtonTimerEventHandler, hi.1, hi.2, hb]
        have hrest := ih s hall2
        simp only [runButtonPolls, ht, if_false, hstep]
        exact ⟨by simpa using hrest.1, fun _ => by simpa using hrest.2 hb⟩
      · have hbH : s.buttonState = GPIO_Value_Type.High := by
          cases hx : s.buttonState
          · exact absurd hx hb
          · rfl
        have hstep2 :
            (ButtonTimerEventHandler i.consumeOk i.readResult i.rearmOk s).2
              = true := by
          simp [ButtonTimerEventHandler, hi.1, hi.2, hbH]
        have hstep1 :
            (ButtonTimerEventHandler i.consumeOk i.readResult
                i.rearmOk s).1.buttonState = GPIO_Value_Type.Low := by
          cases ha : i.rearmOk <;>
            simp [ButtonTimerEventHandler, hi.1, hi.2, hbH, ha]
        have hrest := ih
          (ButtonTimerEventHandler i.consumeOk i.readResult i.rearmOk s).1 hall2
        have hz := hrest.2 hstep1
        constructor
        · simp [runButtonPolls, ht, hstep2, hz]
        · intro hlow
          exact absurd hlow hb

/-- Claim C2: on a poll firing whose read succeeds, a press event is emitted
iff the previously stored level is the released sense (High) and the newly
read level is the pressed sense (Low); and a run of consecutive successful
reads of the pressed level emits at most one press in total. -/
theorem press_iff_stored_high_read_low (s : AppState) (v : GPIO_Value_Type)
    (a : Bool) (inputs : List ButtonPollInput) (t : AppState)
    (hall : ∀ i ∈ inputs,
      i.consumeOk = true ∧ i.readResult = some GPIO_Value_Type.Low) :
    ((ButtonTimerEventHandler true (some v) a s).2 = true ↔
      s.buttonState = GPIO_Value_Type.High ∧ v = GPIO_Value_Type.Low) ∧
    (runButtonPolls inputs t).2 ≤ 1 := by
  refine ⟨?_, (pressed_run_count inputs t hall).1⟩
  cases v <;> cases hb : s.buttonState <;> simp [ButtonTimerEventHandler, hb]

theorem press_iff_stored_high_read_low_witness :
    ((ButtonTimerEventHandler true (some GPIO_Value_Type.Low) true
        initialState).2 = true ↔
      initialState.buttonState = GPIO_Value_Type.High ∧
        GPIO_Value_Type.Low = GPIO_Value_Type.Low) ∧
    (runButtonPolls
      [{ consumeOk := true, readResult := some GPIO_Value_Type.Low,
         rearmOk := true },
       { consumeOk := true, readResult := some GPIO_Value_Type.Low,
         rearmOk := true }] initialState).2 ≤ 1 :=
  press_iff_stored_high_read_low initialState GPIO_Value_Type.Low true _
    initialState (by decide)

/-- In a run of n blink firings that all fully succeed, exactly n writes are
issued and the stored level ends at its start value toggled n times. -/
lemma runBlinkFirings_length_led (n : Nat) (s : AppState) :
    (runBlinkFirings n s).2.length = n ∧
    (runBlinkFirings n s).1.ledState =
      (if n % 2 = 0 then s.ledState else toggleLedValue s.ledState) := by
  induction n generalizing s with
  | zero => simp [runBlinkFirings]
  | succ n ih =>
    have hstep : BlinkingLedTimerEventHandler true true s =
        ({ s with ledState := toggleLedValue s.ledState,
                  physicalLed := toggleLedValue s.ledState },
          [toggleLedValue s.ledState]) := by
      simp [BlinkingLedTimerEventHandler]
    have ih2 := ih { s with ledState := toggleLedValue s.ledState,
                            physicalLed := toggleLedValue s.ledState }
    constructor
    · simp [runBlinkFirings, hstep, ih2.1]
    · simp only [runBlinkFirings, hstep]
      rw [ih2.2]
      by_cases h : n % 2 = 0
      · have h1 : (n + 1) % 2 = 1 := by omega
        simp [h, h1]
      · have h0 : n % 2 = 1 := by omega
        have h1 : (n + 1) % 2 = 0 := by omega
        simp only [h0, h1]
        cases hl : s.ledState <;> simp [toggleLedValue]

/-- Claim C4: in every sequence of blink firings where consuming and writing
both succeed, each firing toggles the stored output level exactly once (never
zero or two times) and issues exactly one write of the new level, so n
firings issue n writes and flip the level exactly when n is odd. -/
theorem blink_toggles_once_per_firing (n : Nat) (s : AppState) :
    (runBlinkFirings n s).2.length = n ∧
    (runBlinkFirings n s).1.ledState =
      (if n % 2 = 0 then s.ledState else toggleLedValue s.ledState) ∧
    (∀ t : AppState,
      (BlinkingLedTimerEventHandler true true t).1.ledState
        = toggleLedValue t.ledState ∧
      toggleLedValue t.ledState ≠ t.ledState ∧
      (BlinkingLedTimerEventHandler true true t).2
        = [toggleLedValue t.ledState]) := by
  refine ⟨(runBlinkFirings_length_led n s).1,
    (runBlinkFirings_length_led n s).2, fun t => ?_⟩
  cases hl : t.ledState <;>
    simp [BlinkingLedTimerEventHandler, toggleLedValue, hl]

/-- One button poll firing advances the blink interval index cyclically
exactly when it emits a press, and leaves it unchanged otherwise. -/
lemma button_step_index (c : Bool) (rr : Option GPIO_Value_Type) (a : Bool)
    (s : AppState) :
    (ButtonTimerEventHandler c rr a s).1.blinkIntervalIndex =
      (if (ButtonTimerEventHandler c rr a s).2 = true then
        (s.blinkIntervalIndex + 1) % numBlinkIntervals
      else s.blinkIntervalIndex) := by
  cases c
  · simp [ButtonTimerEventHandler]
  · cases rr with
    | none => simp [ButtonTimerEventHandler]
    | some v =>
      by_cases hb : v = s.buttonState
      · simp [ButtonTimerEventHandler, hb]
      · cases v
        · cases a <;> simp [ButtonTimerEventHandler, hb]
        · simp [ButtonTimerEventHandler, hb]

/-- Over any run of button poll firings, the final blink interval index is
the initial index plus the number of emitted presses, modulo 3. -/
lemma runButtonPolls_index_count (inputs : List ButtonPollInput) (s : AppState)
    (h3 : s.blinkIntervalIndex < 3) :
    (runButtonPolls inputs s).1.blinkIntervalIndex
      = (s.blinkIntervalIndex + (runButtonPolls inputs s).2) % 3 := by
  induction inputs generalizing s with
  | nil =>
    simp only [runButtonPolls]
    omega
  | cons i rest ih =>
    by_cases ht : s.terminationRequired
    · simp only [runButtonPolls, ht, if_true]
      omega
    · have hstep := button_step_index i.consumeOk i.readResult i.rearmOk s
      have hlt :
          (ButtonTimerEventHandler i.consumeOk i.readResult
            i.rearmOk s).1.blinkIntervalIndex < 3 := by
        rw [hstep]
        simp only [numBlinkIntervals]
        split <;> omega
      have ihr := ih
        (ButtonTimerEventHandler i.consumeOk i.readResult i.rearmOk s).1 hlt
      have hunf : runButtonPolls (i :: rest) s
          = ((runButtonPolls rest (ButtonTimerEventHandler i.consumeOk
                i.readResult i.rearmOk s).1).1,
             (if (ButtonTimerEventHandler i.consumeOk i.readResult
                  i.rearmOk s).2 = true then 1 else 0)
               + (runButtonPolls rest (ButtonTimerEventHandler i.consumeOk
                    i.readResult i.rearmOk s).1).2) := by
        simp [runButtonPolls, ht]
      rw [hunf]
      dsimp only
      rw [ihr, hstep]
      simp only [numBlinkIntervals]
      cases hr2 : (ButtonTimerEventHandler i.consumeOk i.readResult
          i.rearmOk s).2 <;> simp [hr2] <;> omega

/-- A trace of button poll firings whose reads alternate Low, High, Low,
High, Low, High, Low, producing four press events; every call succeeds. -/
def fourPressTrace : List ButtonPollInput :=
  [{ consumeOk := true, readResult := some GPIO_Value_Type.Low, rearmOk := true },
   { consumeOk := true, readResult := some GPIO_Value_Type.High, rearmOk := true },
   { consumeOk := true, readResult := some GPIO_Value_Type.Low, rearmOk := true },
   { consumeOk := true, readResult := some GPIO_Value_Type.High, rearmOk := true },
   { consumeOk := true, readResult := some GPIO_Value_Type.Low, rearmOk := true },
   { consumeOk := true, readResult := some GPIO_Value_Type.High, rearmOk := true },
   { consumeOk := true, readResult := some GPIO_Value_Type.Low, rearmOk := true }]

/-- The state after a fully successful initialization with distinct sample
file descriptors. -/
def scenarioStart : AppState :=
  (InitPeripheralsAndHandlers
    { epollResult := 3, buttonGpioResult := 4, buttonTimerResult := 5,
      ledGpioResult := 6, ledTimerResult := 7, i2cResult := 8 }
    initialState).1

/-- Claim C3: starting from blink interval index 0, after any run of poll
firings with N emitted presses (rearms all succeeding) the index equals
N mod 3; each press with a successful rearm sets the timer period to the
interval table entry at the new index; and the concrete four-press scenario
ends at index 1 with the timer rearmed to 250 ms. -/
theorem blink_index_equals_presses_mod3 (inputs : List ButtonPollInput)
    (s : AppState) (hrearm : ∀ i ∈ inputs, i.rearmOk = true)
    (h0 : s.blinkIntervalIndex = 0) :
    ((runButtonPolls inputs s).1.blinkIntervalIndex
      = (runButtonPolls inputs s).2 % 3) ∧
    (∀ t : AppState, t.buttonState = GPIO_Value_Type.High →
      (ButtonTimerEventHandler true (some GPIO_Value_Type.Low) true
          t).1.blinkTimerPeriod
        = blinkIntervals.getD ((t.blinkIntervalIndex + 1) % numBlinkIntervals)
            { tv_sec := 0, tv_nsec := 0 }) ∧
    ((runButtonPolls fourPressTrace scenarioStart).2 = 4 ∧
     (runButtonPolls fourPressTrace scenarioStart).1.blinkIntervalIndex = 1 ∧
     (runButtonPolls fourPressTrace scenarioStart).1.blinkTimerPeriod
       = { tv_sec := 0, tv_nsec := 250000000 }) := by
  refine ⟨?_, ?_, by decide⟩
  · have h := runButtonPolls_index_count inputs s (by omega)
    rw [h, h0]
    omega
  · intro t htb
    simp [ButtonTimerEventHandler, htb]

theorem blink_index_equals_presses_mod3_witness :
    (runButtonPolls fourPressTrace initialState).1.blinkIntervalIndex
      = (runButtonPolls fourPressTrace initialState).2 % 3 :=
  (blink_index_equals_presses_mod3 fourPressTrace initialState (by decide)
    (by decide)).1

/-- Once terminationRequired holds, the dispatch loop handles no further
wakeup: it exits before dispatching. -/
lemma runLoop_of_termination (events : List LoopEvent) (s : AppState)
    (h : s.terminationRequired = true) : runLoop events s = s := by
  cases events <;> simp [runLoop, h]

/-- When initialization returns 0, every creation call returned a
non-negative descriptor and the resulting state is the fully initialized
one. -/
lemma init_success_state (env : InitEnv)
    (h : (InitPeripheralsAndHandlers env initialState).2 = 0) :
    (InitPeripheralsAndHandlers env initialState).1 =
      { initialState with
          epollFd := env.epollResult
          ledBlinkRateButtonGpioFd := env.buttonGpioResult
          buttonPollTimerFd := env.buttonTimerResult
          blinkingLedGpioFd := env.ledGpioResult
          physicalLed := GPIO_Value_Type.High
          blinkingLedTimerFd := env.ledTimerResult
          blinkTimerPeriod := { tv_sec := 0, tv_nsec := 125000000 }
          i2cFd := env.i2cResult } ∧
    0 ≤ env.epollResult ∧ 0 ≤ env.buttonGpioResult ∧
    0 ≤ env.buttonTimerResult ∧ 0 ≤ env.ledGpioResult ∧
    0 ≤ env.ledTimerResult ∧ 0 ≤ env.i2cResult := by
  simp only [InitPeripheralsAndHandlers] at h ⊢
  split_ifs at h ⊢ with h1 h2 h3 h4 h5 h6
  all_goals try simp at h
  exact ⟨rfl, by omega, by omega, by omega, by omega, by omega, by omega⟩

/-- Teardown closes only valid (non-negative) descriptors. -/
lemma teardown_closes_only_valid (s : AppState) (fd : Int)
    (h : TeardownAction.closeFd fd ∈ (ClosePeripheralsAndHandlers s).2) :
    0 ≤ fd := by
  simp only [ClosePeripheralsAndHandlers, CloseFdAndPrintError] at h
  split_ifs at h <;> simp_all <;> omega

/-- Follows the spec wording for aborted initialization: when a step fails,
the steps already performed have stored their descriptors, the failing call
has stored its negative result, and every descriptor of a step never reached
is still the invalid sentinel -1 of initialState. -/
def abortStateAfterFailedInit (env : InitEnv) : AppState :=
  if env.epollResult < 0 then
    { initialState with
        epollFd := env.epollResult }
  else if env.buttonGpioResult < 0 then
    { initialState with
        epollFd := env.epollResult
        ledBlinkRateButtonGpioFd := env.buttonGpioResult }
  else if env.buttonTimerResult < 0 then
    { initialState with
        epollFd := env.epollResult
        ledBlinkRateButtonGpioFd := env.buttonGpioResult
        buttonPollTimerFd := env.buttonTimerResult }
  else if env.ledGpioResult < 0 then
    { initialState with
        epollFd := env.epollResult
        ledBlinkRateButtonGpioFd := env.buttonGpioResult
        buttonPollTimerFd := env.buttonTimerResult
        blinkingLedGpioFd := env.ledGpioResult }
  else if env.ledTimerResult < 0 then
    { initialState with
        epollFd := env.epollResult
        ledBlinkRateButtonGpioFd := env.buttonGpioResult
        buttonPollTimerFd := env.buttonTimerResult
        blinkingLedGpioFd := env.ledGpioResult
        physicalLed := GPIO_Value_Type.High
        blinkingLedTimerFd := env.ledTimerResult }
  else
    { initialState with
        epollFd := env.epollResult
        ledBlinkRateButtonGpioFd := env.buttonGpioResult
        buttonPollTimerFd := env.buttonTimerResult
        blinkingLedGpioFd := env.ledGpioResult
        physicalLed := GPIO_Value_Type.High
        blinkingLedTimerFd := env.ledTimerResult
        blinkTimerPeriod := { tv_sec := 0, tv_nsec := 125000000 }
        i2cFd := env.i2cResult }

/-- Claim C6: when initialization fails, it aborts at the failing step (every
later descriptor still -1, per abortStateAfterFailedInit), main runs no
wait-loop iteration (its outcome is the same as with no pending wakeups, going
straight to teardown), and teardown closes only descriptors that were
actually opened (non-negative), never the -1 sentinels. -/
theorem init_failure_aborts_and_unwinds (env : InitEnv) (events : List LoopEvent)
    (hfail : (InitPeripheralsAndHandlers env initialState).2 ≠ 0) :
    mainProgram env events = mainProgram env [] ∧
    (InitPeripheralsAndHandlers env initialState).1
      = abortStateAfterFailedInit env ∧
    (∀ fd : Int, TeardownAction.closeFd fd ∈
      (ClosePeripheralsAndHandlers
        (InitPeripheralsAndHandlers env initialState).1).2 → 0 ≤ fd) := by
  refine ⟨?_, ?_, fun fd hm => teardown_closes_only_valid _ fd hm⟩
  · have hterm : runLoop events
        { (InitPeripheralsAndHandlers env initialState).1 with
            terminationRequired := true }
        = { (InitPeripheralsAndHandlers env initialState).1 with
            terminationRequired := true } :=
      runLoop_of_termination events _ rfl
    simp [mainProgram, hfail, hterm, runLoop]
  · simp only [InitPeripheralsAndHandlers, abortStateAfterFailedInit] at hfail ⊢
    split_ifs at hfail ⊢ <;> simp_all <;> decide

theorem init_failure_aborts_and_unwinds_witness :
    mainProgram
      { epollResult := 3, buttonGpioResult := 4, buttonTimerResult := 5,
        ledGpioResult := -1, ledTimerResult := -1, i2cResult := -1 }
      [LoopEvent.terminationSignal]
    = mainProgram
      { epollResult := 3, buttonGpioResult := 4, buttonTimerResult := 5,
        ledGpioResult := -1, ledTimerResult := -1, i2cResult := -1 } [] :=
  (init_failure_aborts_and_unwinds _ [LoopEvent.terminationSignal]
    (by decide)).1

/-- Claim C1 counterexample: after a fully successful initialization the i2c
bus descriptor (here 8) is open, yet teardown never closes it - the claim
that teardown closes every successfully opened resource fails on the code. -/
theorem teardown_skips_i2c_counterexample :
    (InitPeripheralsAndHandlers
      { epollResult := 3, buttonGpioResult := 4, buttonTimerResult := 5,
        ledGpioResult := 6, ledTimerResult := 7, i2cResult := 8 }
      initialState).2 = 0 ∧
    scenarioStart.i2cFd = 8 ∧
    TeardownAction.closeFd 8 ∉ (ClosePeripheralsAndHandlers scenarioStart).2 := by
  decide

/-- Neither handler, nor a SIGTERM delivery or wait failure, touches any of
the six file-descriptor globals: one loop wakeup preserves them all. -/
lemma dispatchEvent_preserves_fds (e : LoopEvent) (s : AppState) :
    (dispatchEvent e s).ledBlinkRateButtonGpioFd = s.ledBlinkRateButtonGpioFd ∧
    (dispatchEvent e s).buttonPollTimerFd = s.buttonPollTimerFd ∧
    (dispatchEvent e s).blinkingLedGpioFd = s.blinkingLedGpioFd ∧
    (dispatchEvent e s).blinkingLedTimerFd = s.blinkingLedTimerFd ∧
    (dispatchEvent e s).i2cFd = s.i2cFd ∧
    (dispatchEvent e s).epollFd = s.epollFd := by
  cases e with
  | blinkTimerEvent c w =>
    cases c <;> cases w <;>
      simp [dispatchEvent, BlinkingLedTimerEventHandler]
  | buttonTimerEvent c r a =>
    cases c
    · simp [dispatchEvent, ButtonTimerEventHandler]
    · cases r with
      | none => simp [dispatchEvent, ButtonTimerEventHandler]
      | some v =>
        by_cases hb : v = s.buttonState
        · simp [dispatchEvent, ButtonTimerEventHandler, hb]
        · cases v <;> cases a <;>
            simp [dispatchEvent, ButtonTimerEventHandler, hb]
  | terminationSignal => simp [dispatchEvent]
  | waitFailure => simp [dispatchEvent]

/-- The dispatch loop preserves all six file-descriptor globals over any
sequence of wakeups: no event trace opens or closes a descriptor. -/
lemma runLoop_preserves_fds (events : List LoopEvent) (s : AppState) :
    (runLoop events s).ledBlinkRateButtonGpioFd = s.ledBlinkRateButtonGpioFd ∧
    (runLoop events s).buttonPollTimerFd = s.buttonPollTimerFd ∧
    (runLoop events s).blinkingLedGpioFd = s.blinkingLedGpioFd ∧
    (runLoop events s).blinkingLedTimerFd = s.blinkingLedTimerFd ∧
    (runLoop events s).i2cFd = s.i2cFd ∧
    (runLoop events s).epollFd = s.epollFd := by
  induction events generalizing s with
  | nil => simp [runLoop]
  | cons e rest ih =>
    by_cases ht : s.terminationRequired
    · simp [runLoop, ht]
    · have hd := dispatchEvent_preserves_fds e s
      have hr := ih (dispatchEvent e s)
      simp only [runLoop, ht, Bool.false_eq_true, if_false]
      exact ⟨hr.1.trans hd.1, hr.2.1.trans hd.2.1, hr.2.2.1.trans hd.2.2.1,
        hr.2.2.2.1.trans hd.2.2.2.1, hr.2.2.2.2.1.trans hd.2.2.2.2.1,
        hr.2.2.2.2.2.trans hd.2.2.2.2.2⟩

/-- Whatever wakeups the loop dispatches after a successful initialization,
the state at loop exit still holds the descriptors the creation calls
returned. -/
lemma exit_state_fds (env : InitEnv) (events : List LoopEvent)
    (h : (InitPeripheralsAndHandlers env initialState).2 = 0) :
    (runLoop events (InitPeripheralsAndHandlers env
        initialState).1).ledBlinkRateButtonGpioFd = env.buttonGpioResult ∧
    (runLoop events (InitPeripheralsAndHandlers env
        initialState).1).buttonPollTimerFd = env.buttonTimerResult ∧
    (runLoop events (InitPeripheralsAndHandlers env
        initialState).1).blinkingLedGpioFd = env.ledGpioResult ∧
    (runLoop events (InitPeripheralsAndHandlers env
        initialState).1).blinkingLedTimerFd = env.ledTimerResult ∧
    (runLoop events (InitPeripheralsAndHandlers env
        initialState).1).i2cFd = env.i2cResult ∧
    (runLoop events (InitPeripheralsAndHandlers env
        initialState).1).epollFd = env.epollResult := by
  obtain ⟨hs, -, -, -, -, -, -⟩ := init_success_state env h
  have hp := runLoop_preserves_fds events
    (InitPeripheralsAndHandlers env initialState).1
  exact ⟨hp.1.trans (by simp [hs]), hp.2.1.trans (by simp [hs]),
    hp.2.2.1.trans (by simp [hs]), hp.2.2.2.1.trans (by simp [hs]),
    hp.2.2.2.2.1.trans (by simp [hs]), hp.2.2.2.2.2.trans (by simp [hs])⟩

/-- Claim C1 (amended): whenever the dispatch loop exits - after any event
trace, whether it ends through a termination request or through an internal
error - the teardown main runs first sets the output line to its safe level
and then closes, exactly once each and in strict reverse-creation order,
every resource successfully opened during initialization except the i2c bus
descriptor, which is never closed. -/
theorem teardown_order_and_coverage (env : InitEnv) (events : List LoopEvent)
    (h : (InitPeripheralsAndHandlers env initialState).2 = 0)
    (hne : env.i2cResult ≠ env.ledTimerResult ∧
      env.i2cResult ≠ env.ledGpioResult ∧
      env.i2cResult ≠ env.buttonTimerResult ∧
      env.i2cResult ≠ env.buttonGpioResult ∧
      env.i2cResult ≠ env.epollResult) :
    (mainProgram env events).2.1
      = [TeardownAction.setLed GPIO_Value_Type.High,
         TeardownAction.closeFd env.ledTimerResult,
         TeardownAction.closeFd env.ledGpioResult,
         TeardownAction.closeFd env.buttonTimerResult,
         TeardownAction.closeFd env.buttonGpioResult,
         TeardownAction.closeFd env.epollResult] ∧
    TeardownAction.closeFd env.i2cResult ∉ (mainProgram env events).2.1 := by
  obtain ⟨hs, hb1, hb2, hb3, hb4, hb5, hb6⟩ := init_success_state env h
  obtain ⟨hn1, hn2, hn3, hn4, hn5⟩ := hne
  obtain ⟨e1, e2, e3, e4, e5, e6⟩ := exit_state_fds env events h
  have hmain : (mainProgram env events).2.1
      = (ClosePeripheralsAndHandlers
          (runLoop events (InitPeripheralsAndHandlers env initialState).1)).2 := by
    simp [mainProgram, h]
  rw [hmain]
  constructor
  · simp [ClosePeripheralsAndHandlers, CloseFdAndPrintError,
      e1, e2, e3, e4, e5, e6, hb1, hb2, hb3, hb4, hb5]
  · simp [ClosePeripheralsAndHandlers, CloseFdAndPrintError,
      e1, e2, e3, e4, e5, e6, hb1, hb2, hb3, hb4, hb5,
      hn1, hn2, hn3, hn4, hn5]

theorem teardown_order_and_coverage_witness :
    (mainProgram
      { epollResult := 3, buttonGpioResult := 4, buttonTimerResult := 5,
        ledGpioResult := 6, ledTimerResult := 7, i2cResult := 8 }
      [LoopEvent.buttonTimerEvent true (some GPIO_Value_Type.Low) true,
       LoopEvent.terminationSignal]).2.1
      = [TeardownAction.setLed GPIO_Value_Type.High,
         TeardownAction.closeFd 7, TeardownAction.closeFd 6,
         TeardownAction.closeFd 5, TeardownAction.closeFd 4,
         TeardownAction.closeFd 3] :=
  (teardown_order_and_coverage _
    [LoopEvent.buttonTimerEvent true (some GPIO_Value_Type.Low) true,
     LoopEvent.terminationSignal] (by decide) (by decide)).1

/-- Claim C5: if the input line read fails during a poll firing (after a
successful initialization), the handler sets terminationRequired and returns
without emitting a press or touching any other state, the dispatch loop
handles no further wakeup, and teardown begins by setting the output line to
its safe level High. -/
theorem read_failure_terminates_safely (env : InitEnv)
    (events : List LoopEvent) (a : Bool)
    (h : (InitPeripheralsAndHandlers env initialState).2 = 0) :
    (ButtonTimerEventHandler true none a
        (InitPeripheralsAndHandlers env initialState).1).1
      = { (InitPeripheralsAndHandlers env initialState).1 with
          terminationRequired := true } ∧
    (ButtonTimerEventHandler true none a
        (InitPeripheralsAndHandlers env initialState).1).2 = false ∧
    runLoop (LoopEvent.buttonTimerEvent true none a :: events)
        (InitPeripheralsAndHandlers env initialState).1
      = { (InitPeripheralsAndHandlers env initialState).1 with
          terminationRequired := true } ∧
    (ClosePeripheralsAndHandlers
        { (InitPeripheralsAndHandlers env initialState).1 with
          terminationRequired := true }).2.head?
      = some (TeardownAction.setLed GPIO_Value_Type.High) ∧
    (ClosePeripheralsAndHandlers
        { (InitPeripheralsAndHandlers env initialState).1 with
          terminationRequired := true }).1.physicalLed
      = GPIO_Value_Type.High := by
  obtain ⟨hs, hb1, hb2, hb3, hb4, hb5, hb6⟩ := init_success_state env h
  have hhandler : ∀ t : AppState, ButtonTimerEventHandler true none a t
      = ({ t with terminationRequired := true }, false) := by
    intro t
    simp [ButtonTimerEventHandler]
  refine ⟨by rw [hhandler], by rw [hhandler], ?_, ?_, ?_⟩
  · have hterm : runLoop events
        { (InitPeripheralsAndHandlers env initialState).1 with
            terminationRequired := true }
        = { (InitPeripheralsAndHandlers env initialState).1 with
            terminationRequired := true } :=
      runLoop_of_termination events _ rfl
    have hfalse : (InitPeripheralsAndHandlers env
        initialState).1.terminationRequired = false := by
      rw [hs]
      rfl
    simp [runLoop, hfalse, dispatchEvent, hhandler, hterm]
  · rw [hs]
    simp [ClosePeripheralsAndHandlers, hb4]
  · rw [hs]
    simp [ClosePeripheralsAndHandlers, hb4]

theorem read_failure_terminates_safely_witness :
    runLoop
      [LoopEvent.buttonTimerEvent true none true,
       LoopEvent.blinkTimerEvent true true]
      (InitPeripheralsAndHandlers
        { epollResult := 3, buttonGpioResult := 4, buttonTimerResult := 5,
          ledGpioResult := 6, ledTimerResult := 7, i2cResult := 8 }
        initialState).1
      = { (InitPeripheralsAndHandlers
            { epollResult := 3, buttonGpioResult := 4, buttonTimerResult := 5,
              ledGpioResult := 6, ledTimerResult := 7, i2cResult := 8 }
            initialState).1 with terminationRequired := true } :=
  (read_failure_terminates_safely _ [LoopEvent.blinkTimerEvent true true]
    true (by decide)).2.2.1
